import Mathlib

/-!
# Litholino: UV exposure box controller (src/main.cpp)

Shallow embedding of the poll loop of `src/main.cpp` (an AVR / ATmega328P sketch:
`int` is 16 bits, `long` and `unsigned long` are 32 bits, `uint16_t` is `unsigned int`).

* the globals and the function-local statics of `loop` are the fields of `State`;
* one call of `loop` is the function `loop : State → Input → State × Fired`, where `Input`
  holds what the hardware delivers in that cycle (one clock value, one sample per line, the
  encoder movement since the previous cycle) and `Fired` records which of the two debounced
  `if` conditions was taken;
* unsigned arithmetic is arithmetic on `Nat` reduced modulo `2 ^ 32` or `2 ^ 16`.
-/

namespace Litholino

/-! ## Machine arithmetic -/

/-- Number of values of an `unsigned long` (32 bits on AVR). -/
def ULONG : Nat := 4294967296

/-- Unsigned 32-bit subtraction `a - b`, as in `millis() - last_pushbutton`. -/
def sub32 (a b : Nat) : Nat := (a % ULONG + ULONG - b % ULONG) % ULONG

/-- Value of a mathematical integer after conversion to `int32_t` (two's complement); also used
for the result of `int32_t` arithmetic, whose overflow is taken to wrap. -/
def toInt32 (x : Int) : Int := (x + 2147483648) % 4294967296 - 2147483648

/-- Value of a mathematical integer after conversion to `unsigned long`. -/
def toULong (x : Int) : Nat := (x % 4294967296).toNat

/-- Value of a mathematical integer after conversion to `uint16_t`. -/
def toUInt16 (x : Int) : Nat := (x % 65536).toNat

/-- Modelled from the spec: the `constrain(amt, low, high)` macro of `Arduino.h`, which is not
part of the repository; `((amt)<(low)?(low):((amt)>(high)?(high):(amt)))` on unsigned operands. -/
def constrain (amt low high : Nat) : Nat :=
  if amt < low then low else if amt > high then high else amt

/-! ## Constants of main.cpp -/

def MAX_EXPOSURE_DURATION : Nat := 600000
def MIN_EXPOSURE_DURATION : Nat := 0
def MAX_DIMMER_VALUE : Nat := 8000
def MIN_DIMMER_VALUE : Nat := 0
def MAX_POWER : Nat := 20
def DIMMER_PER_WATT : Nat := MAX_DIMMER_VALUE / MAX_POWER
def DEBOUNCE_DELAY : Nat := 50
def DISPLAY_UPDATE_INTERVAL : Nat := 100
def ENCODER_STEP_DURATION : Int := 250
def ENCODER_STEP_POWER : Int := 10

/-! ## Data model -/

/-- The enum `DeviceState`. -/
inductive DeviceState where
  | IDLE
  | EXPOSURE
  | SCROLL_MODE
  | EDIT_DURATION
  | EDIT_POWER
  deriving DecidableEq, Repr

/-- The enum `EditSelection`, kept as its underlying integer because `loop` produces it with a
`static_cast` from an arithmetic expression. -/
abbrev EditSelection := Int

def RETURN : EditSelection := 0
def POWER : EditSelection := 1
def DURATION : EditSelection := 2

/-- Globals of main.cpp, the statics of `loop`, the position held by the `Encoder` object and
the timer compare register `OCR1A`. -/
structure State where
  currentState : DeviceState
  currentSelection : EditSelection
  exposure_start_time : Nat
  exposure_duration : Nat
  dimmer_value : Nat
  pushbutton_ready : Bool
  last_pushbutton : Nat
  foot_pedal_ready : Bool
  last_foot_pedal : Nat
  encoder : Int
  OCR1A : Nat
  deriving DecidableEq, Repr

/-- What the hardware delivers to one call of `loop`: the value of `millis()`, the level of the
two pins as returned by `digitalRead` (`true` is HIGH, the released level of the pulled-up
inputs) and the encoder movement accumulated since the previous call. -/
structure Input where
  now : Nat
  foot_pedal : Bool
  pushbutton : Bool
  ticks : Int
  deriving DecidableEq, Repr

/-- Which debounced conditions of `loop` were taken in a cycle. -/
structure Fired where
  foot_pedal : Bool
  pushbutton : Bool
  deriving DecidableEq, Repr

/-- The value of `millis()` in a cycle, an `unsigned long`. -/
def millis (i : Input) : Nat := i.now % ULONG

/-- State after `setup()` and the initialisation of the statics of `loop`, whose first call
reads `millis()` as `t0`. -/
def powerOn (t0 : Nat) : State :=
  { currentState := DeviceState.IDLE
    currentSelection := RETURN
    exposure_start_time := 0
    exposure_duration := 60000
    dimmer_value := 6000
    pushbutton_ready := true
    last_pushbutton := t0 % ULONG
    foot_pedal_ready := true
    last_foot_pedal := t0 % ULONG
    encoder := 0
    OCR1A := 0 }

/-! ## The Encoder object -/

/-- Modelled from the spec: the `Encoder` library is not part of the repository; its position is
an `int32_t` that the hardware moves by the ticks of the cycle. -/
def encoderMove (s : State) (ticks : Int) : State :=
  { s with encoder := toInt32 (s.encoder + ticks) }

/-- Modelled from the spec: `encoder.readAndReset()` returns the accumulated ticks and sets the
accumulator to zero (the spec's `readAndResetDelta`, ticks since last call). -/
def readAndReset (s : State) : Int × State :=
  (s.encoder, { s with encoder := 0 })

/-- Modelled from the spec: `encoder.write(p)` sets the accumulator (the spec's `resetTo`). -/
def encoderWrite (s : State) (p : Int) : State :=
  { s with encoder := toInt32 p }

/-! ## The poll loop -/

/-- The condition
`!digitalRead(pin_foot_pedal) && millis() - last_foot_pedal > DEBOUNCE_DELAY && foot_pedal_ready`. -/
def footPedalCond (s : State) (i : Input) : Bool :=
  !i.foot_pedal && decide (sub32 (millis i) s.last_foot_pedal > DEBOUNCE_DELAY) && s.foot_pedal_ready

/-- The condition
`!digitalRead(pin_pushbutton) && millis() - last_pushbutton > DEBOUNCE_DELAY && pushbutton_ready`. -/
def pushbuttonCond (s : State) (i : Input) : Bool :=
  !i.pushbutton && decide (sub32 (millis i) s.last_pushbutton > DEBOUNCE_DELAY) && s.pushbutton_ready

/-- Lines 84-87 and 92-95 of `loop`: a released line re-arms its flag. -/
def rearm (s : State) (i : Input) : State :=
  let s1 := if !s.pushbutton_ready && i.pushbutton then { s with pushbutton_ready := true } else s
  if !s1.foot_pedal_ready && i.foot_pedal then { s1 with foot_pedal_ready := true } else s1

/-- The selection computed in SCROLL_MODE: `(n % 3 + 3) % 3` with the truncating remainder of
C++ on `int32_t`. -/
def selectionOf (n : Int) : EditSelection := Int.tmod (Int.tmod n 3 + 3) 3

/-- The `case IDLE` of the switch. -/
def caseIdle (s : State) (i : Input) : State × Fired :=
  if footPedalCond s i then
    ({ s with
        last_foot_pedal := millis i
        foot_pedal_ready := false
        currentState := DeviceState.EXPOSURE
        exposure_start_time := millis i
        OCR1A := s.dimmer_value }, ⟨true, false⟩)
  else if pushbuttonCond s i then
    ({ s with
        last_pushbutton := millis i
        pushbutton_ready := false
        currentSelection := RETURN
        currentState := DeviceState.SCROLL_MODE }, ⟨false, true⟩)
  else (s, ⟨false, false⟩)

/-- The `case EXPOSURE` of the switch: two consecutive `if` statements. -/
def caseExposure (s : State) (i : Input) : State × Fired :=
  let p := footPedalCond s i
  let s1 :=
    if p then
      { s with
        last_foot_pedal := millis i
        foot_pedal_ready := false
        currentState := DeviceState.IDLE
        OCR1A := 0 }
    else s
  let s2 :=
    if sub32 (millis i) s1.exposure_start_time ≥ s1.exposure_duration then
      { s1 with currentState := DeviceState.IDLE, OCR1A := 0 }
    else s1
  (s2, ⟨p, false⟩)

/-- The `case SCROLL_MODE` of the switch. -/
def caseScroll (s : State) (i : Input) : State × Fired :=
  let r := readAndReset s
  let s1 := { r.2 with currentSelection := selectionOf r.1 }
  if pushbuttonCond s1 i then
    let s2 := { s1 with last_pushbutton := millis i, pushbutton_ready := false }
    let s3 :=
      if s2.currentSelection = DURATION then
        { encoderWrite s2 0 with currentState := DeviceState.EDIT_DURATION }
      else if s2.currentSelection = POWER then
        { encoderWrite s2 0 with currentState := DeviceState.EDIT_POWER }
      else if s2.currentSelection = RETURN then
        { s2 with currentState := DeviceState.IDLE }
      else s2
    (s3, ⟨false, true⟩)
  else (s1, ⟨false, false⟩)

/-- The `case EDIT_DURATION` of the switch. The product is an `int32_t`, the sum is converted
to `unsigned long`. -/
def caseEditDuration (s : State) (i : Input) : State × Fired :=
  let r := readAndReset s
  let sum := toULong ((s.exposure_duration : Int) + toInt32 (r.1 * ENCODER_STEP_DURATION))
  let s1 := { r.2 with
    exposure_duration := constrain sum MIN_EXPOSURE_DURATION MAX_EXPOSURE_DURATION }
  if pushbuttonCond s1 i then
    ({ s1 with
        pushbutton_ready := false
        last_pushbutton := millis i
        currentState := DeviceState.SCROLL_MODE }, ⟨false, true⟩)
  else (s1, ⟨false, false⟩)

/-- The `case EDIT_POWER` of the switch. The sum is computed in `long` and stored into a
`uint16_t`. -/
def caseEditPower (s : State) (i : Input) : State × Fired :=
  let r := readAndReset s
  let sum := toUInt16 (toInt32 ((s.dimmer_value : Int) + toInt32 (r.1 * ENCODER_STEP_POWER)))
  let s1 := { r.2 with dimmer_value := constrain sum MIN_DIMMER_VALUE MAX_DIMMER_VALUE }
  if pushbuttonCond s1 i then
    ({ s1 with
        pushbutton_ready := false
        last_pushbutton := millis i
        currentState := DeviceState.SCROLL_MODE }, ⟨false, true⟩)
  else (s1, ⟨false, false⟩)

/-- One call of `loop()` (without `update_display`, which does not write the state above). -/
def loop (s : State) (i : Input) : State × Fired :=
  let s0 := rearm (encoderMove s i.ticks) i
  match s0.currentState with
  | DeviceState.IDLE => caseIdle s0 i
  | DeviceState.EXPOSURE => caseExposure s0 i
  | DeviceState.SCROLL_MODE => caseScroll s0 i
  | DeviceState.EDIT_DURATION => caseEditDuration s0 i
  | DeviceState.EDIT_POWER => caseEditPower s0 i

/-- State after the cycles of a list of inputs. -/
def run (s : State) : List Input → State
  | [] => s
  | i :: is => run (loop s i).1 is

/-- The events of the cycles of a list of inputs, in order. -/
def trace (s : State) : List Input → List Fired
  | [] => []
  | i :: is => (loop s i).2 :: trace (loop s i).1 is

/-- Number of cycles of a run in which the foot pedal condition was taken. -/
def footPedalFires (s : State) (is : List Input) : Nat :=
  ((trace s is).filter (fun f => f.foot_pedal)).length

/-- Number of cycles of a run in which the pushbutton condition was taken. -/
def pushbuttonFires (s : State) (is : List Input) : Nat :=
  ((trace s is).filter (fun f => f.pushbutton)).length

/-! ## The display -/

/-- The numbers formatted by `display_power_and_duration`. -/
structure PowerAndDuration where
  power_whole : Nat
  power_decimal : Nat
  exposure_seconds : Nat
  deriving DecidableEq, Repr

/-- The function `display_power_and_duration`: the arithmetic on `dimmer_value` is done in
`unsigned int` (16 bits), the division of `exposure_duration` in `unsigned long`. -/
def display_power_and_duration (s : State) : PowerAndDuration :=
  { power_whole := s.dimmer_value / DIMMER_PER_WATT
    power_decimal := (s.dimmer_value % DIMMER_PER_WATT) * 10 % 65536 / DIMMER_PER_WATT
    exposure_seconds := s.exposure_duration / 1000 }

/-- The argument of `"%3lu"` in `case EXPOSURE` of `update_display`:
`(exposure_start_time + exposure_duration - millis()) / 1000` in `unsigned long`. -/
def remainingSeconds (s : State) (now : Nat) : Nat :=
  sub32 ((s.exposure_start_time + s.exposure_duration) % ULONG) now / 1000

/-- What `update_display` draws, by case of its switch. -/
inductive Screen where
  | idle (pd : PowerAndDuration)
  | exposure (remaining : Nat)
  | scroll (pd : PowerAndDuration) (selection : EditSelection)
  | editDuration (pd : PowerAndDuration)
  | editPower (pd : PowerAndDuration)
  deriving DecidableEq, Repr

/-- The function `update_display` with its static `last_display_update` as an argument: nothing
is drawn before `DISPLAY_UPDATE_INTERVAL` has passed; the result is the screen drawn, if any,
and the new value of the static. -/
def update_display (last_display_update : Nat) (s : State) (i : Input) : Option Screen × Nat :=
  if sub32 (millis i) last_display_update < DISPLAY_UPDATE_INTERVAL then
    (none, last_display_update)
  else
    (some (match s.currentState with
      | DeviceState.IDLE => Screen.idle (display_power_and_duration s)
      | DeviceState.EXPOSURE => Screen.exposure (remainingSeconds s (millis i))
      | DeviceState.SCROLL_MODE =>
          Screen.scroll (display_power_and_duration s) s.currentSelection
      | DeviceState.EDIT_DURATION => Screen.editDuration (display_power_and_duration s)
      | DeviceState.EDIT_POWER => Screen.editPower (display_power_and_duration s)),
     millis i)

/-! ## The rules of the specification, for comparison -/

/-- The accumulator of the specification (section 4.2), over the integers:
`clamp(current + delta * stepSize, lo, hi)`. -/
def specAccumulate (delta stepSize current lo hi : Int) : Int :=
  max lo (min hi (current + delta * stepSize))

/-- The gate rule of the specification (section 4.1) as a relation between the gate state
before a cycle (`ready`, `last`), the sample (`line`, `true` is the released level), the clock
and the outcome (`fired`, `ready1`, `last1`). -/
def GateStep (ready line : Bool) (last now : Nat) (fired ready1 : Bool) (last1 : Nat) : Prop :=
  (fired = true ↔ (ready = true ∧ line = false ∧ sub32 now last > DEBOUNCE_DELAY)) ∧
  (fired = true → ready1 = false ∧ last1 = now) ∧
  (fired = false → last1 = last ∧ ready1 = (ready || line))

instance (ready line : Bool) (last now : Nat) (fired ready1 : Bool) (last1 : Nat) :
    Decidable (GateStep ready line last now fired ready1 last1) := by
  unfold GateStep
  infer_instance

/-- No debounced condition is taken in any cycle of the run. -/
def quiet (s : State) (is : List Input) : Prop :=
  ∀ f ∈ trace s is, f.foot_pedal = false ∧ f.pushbutton = false

instance (s : State) (is : List Input) : Decidable (quiet s is) := by
  unfold quiet
  infer_instance

/-- Time stamp of the first sample of a segment. -/
def firstNow (seg : List Input) : Nat := (seg.head?.map Input.now).getD 0

/-- Time stamp of the last sample of a segment. -/
def lastNow (seg : List Input) : Nat := (seg.getLast?.map Input.now).getD 0

/-- The samples of one physical press and release of a line, split into its phases. -/
structure PressTrace where
  quietBefore : List Input
  pressBounce : List Input
  held : List Input
  releaseBounce : List Input
  quietAfter : List Input

/-- All cycles of a press, in order. -/
def PressTrace.inputs (p : PressTrace) : List Input :=
  p.quietBefore ++ p.pressBounce ++ p.held ++ p.releaseBounce ++ p.quietAfter

/-- A single press and release of the line read by `line`, bracketed by stability: time stamps
do not decrease and stay below `2 ^ 32`; the line is released for at least 50 ms; the press
bounce (any samples) is over less than 50 ms after it began; the line then stays pressed; the
release bounce (any samples) is over less than 50 ms after it began; the line is then released
for at least 50 ms. -/
def PressTrace.single (line : Input → Bool) (p : PressTrace) : Prop :=
  (p.inputs.map Input.now).Sorted (fun a b => a ≤ b) ∧
  (∀ x ∈ p.inputs, x.now < ULONG) ∧
  p.quietBefore ≠ [] ∧ (∀ x ∈ p.quietBefore, line x = true) ∧
  firstNow p.quietBefore + 50 ≤ lastNow p.quietBefore ∧
  (p.pressBounce ≠ [] → firstNow p.held < firstNow p.pressBounce + 50) ∧
  p.held ≠ [] ∧ (∀ x ∈ p.held, line x = false) ∧
  (p.releaseBounce ≠ [] → firstNow p.quietAfter < firstNow p.releaseBounce + 50) ∧
  p.quietAfter ≠ [] ∧ (∀ x ∈ p.quietAfter, line x = true) ∧
  firstNow p.quietAfter + 50 ≤ lastNow p.quietAfter

instance (line : Input → Bool) (p : PressTrace) : Decidable (PressTrace.single line p) := by
  unfold PressTrace.single
  infer_instance

/-- The illumination invariant: `OCR1A` is 0 outside EXPOSURE and the power setting, itself
at most `MAX_DIMMER_VALUE`, in EXPOSURE. -/
def IlluminationOff (s : State) : Prop :=
  (s.currentState ≠ DeviceState.EXPOSURE → s.OCR1A = 0) ∧
  (s.currentState = DeviceState.EXPOSURE → s.OCR1A = s.dimmer_value) ∧
  s.dimmer_value ≤ MAX_DIMMER_VALUE

instance (s : State) : Decidable (IlluminationOff s) := by
  unfold IlluminationOff
  infer_instance

/-! ## Concrete states and traces -/

/-- A cycle that only samples the foot pedal: pushbutton released, encoder at rest. -/
def pedalSample (now : Nat) (level : Bool) : Input := ⟨now, level, true, 0⟩

/-- A press held for about a second whose release bounces once. -/
def releaseBouncePress : PressTrace :=
  { quietBefore := [pedalSample 0 true, pedalSample 30 true, pedalSample 60 true]
    pressBounce := []
    held := [pedalSample 61 false, pedalSample 500 false, pedalSample 1000 false]
    releaseBounce := [pedalSample 1001 true, pedalSample 1002 false]
    quietAfter := [pedalSample 1003 true, pedalSample 1030 true, pedalSample 1060 true] }

/-- A press that bounces once when it is made and is then held for more than 50 ms. -/
def pressBouncePress : PressTrace :=
  { quietBefore := [pedalSample 0 true, pedalSample 30 true, pedalSample 60 true]
    pressBounce := [pedalSample 61 false, pedalSample 62 true]
    held := [pedalSample 63 false, pedalSample 100 false, pedalSample 150 false]
    releaseBounce := []
    quietAfter := [pedalSample 300 true, pedalSample 330 true, pedalSample 360 true] }

/-- A state in the given mode with the given settings and encoder position; the rest as after
power-on at time 0. -/
def stateIn (m : DeviceState) (duration dimmer : Nat) (enc : Int) : State :=
  { powerOn 0 with
    currentState := m
    exposure_duration := duration
    dimmer_value := dimmer
    encoder := enc }

/-- A cycle in which both lines are released and the encoder has moved by `ticks`. -/
def idleSample (now : Nat) (ticks : Int) : Input := ⟨now, true, true, ticks⟩

/-- From power-on: the pushbutton opens the menu at 60 ms and is released, then confirms at
200 ms in a cycle in which the encoder has moved by `ticks`. -/
def enterMenuAndConfirm (ticks : Int) : List Input :=
  [⟨60, true, false, 0⟩, ⟨70, true, true, 0⟩, ⟨200, true, false, ticks⟩]

/-- An exposure of 2000 ms started at time 0 with the default power. -/
def exposing2000 : State :=
  { powerOn 0 with
    currentState := DeviceState.EXPOSURE
    exposure_start_time := 0
    exposure_duration := 2000
    OCR1A := 6000 }

/-! ## Theorems -/

open DeviceState

/-- C1 (debounce idempotence) fails on the code: from power-on at time 0, a single press of the
foot pedal whose release bounces once (and likewise a press whose make bounces once and which is
held for more than 50 ms) takes the foot pedal condition twice, not once. The re-arm of lines
92-95 has no time check, so any released sample 50 ms after a fire makes the next pressed sample
fire again. -/
theorem debounce_single_press_fires_twice :
    PressTrace.single Input.foot_pedal releaseBouncePress ∧
    footPedalFires (powerOn 0) releaseBouncePress.inputs = 2 ∧
    (run (powerOn 0) releaseBouncePress.inputs).currentState = DeviceState.IDLE ∧
    PressTrace.single Input.foot_pedal pressBouncePress ∧
    footPedalFires (powerOn 0) pressBouncePress.inputs = 2 := by
  refine ⟨?_, by decide, by decide, ?_, by decide⟩ <;>
    simp [PressTrace.single, PressTrace.inputs, releaseBouncePress, pressBouncePress,
      pedalSample, firstNow, lastNow, ULONG]

/-- C2 (duration accumulation) fails on the code: in EDIT_DURATION with a duration of 0, one
encoder tick down stores 600000, where the saturating clamp of the specification gives 0. The
sum is formed in `unsigned long` and wraps before `constrain` sees it. The same happens on a run
from power-on that enters EDIT_DURATION with the default 60000 and turns 241 ticks down. -/
theorem edit_duration_wraps_below_zero :
    (loop (stateIn DeviceState.EDIT_DURATION 0 6000 0) (idleSample 10 (-1))).1.exposure_duration
      = 600000 ∧
    specAccumulate (-1) 250 0 0 600000 = 0 ∧
    (run (powerOn 0) (enterMenuAndConfirm 2)).currentState = DeviceState.EDIT_DURATION ∧
    (run (powerOn 0) (enterMenuAndConfirm 2)).exposure_duration = 60000 ∧
    (run (powerOn 0) (enterMenuAndConfirm 2 ++ [idleSample 210 (-241)])).exposure_duration
      = 600000 ∧
    specAccumulate (-241) 250 60000 0 600000 = 0 := by
  decide

/-- C3 (power accumulation) fails on the code: in EDIT_POWER with a dimmer value of 0, one
encoder tick down stores 8000 where the saturating clamp gives 0, and 6554 ticks up store 4
where the saturating clamp gives 8000. The sum is truncated to `uint16_t` before `constrain`.
The same happens on a run from power-on that enters EDIT_POWER with the default 6000 and turns
601 ticks down. -/
theorem edit_power_wraps :
    (loop (stateIn DeviceState.EDIT_POWER 60000 0 0) (idleSample 10 (-1))).1.dimmer_value = 8000 ∧
    specAccumulate (-1) 10 0 0 8000 = 0 ∧
    (loop (stateIn DeviceState.EDIT_POWER 60000 0 0) (idleSample 10 6554)).1.dimmer_value = 4 ∧
    specAccumulate 6554 10 0 0 8000 = 8000 ∧
    (run (powerOn 0) (enterMenuAndConfirm 1)).currentState = DeviceState.EDIT_POWER ∧
    (run (powerOn 0) (enterMenuAndConfirm 1)).dimmer_value = 6000 ∧
    (run (powerOn 0) (enterMenuAndConfirm 1 ++ [idleSample 210 (-601)])).dimmer_value = 8000 ∧
    specAccumulate (-601) 10 6000 0 8000 = 0 := by
  decide

/-- C5 (non-destructive menu selection) fails on the code: in SCROLL_MODE with the encoder at 1,
a cycle with no movement selects POWER and leaves the encoder at 0, and the next cycle with no
movement and no button event selects RETURN. `readAndReset` clears the accumulator. -/
theorem scroll_mode_read_resets_encoder :
    (stateIn DeviceState.SCROLL_MODE 60000 6000 1).encoder = 1 ∧
    (loop (stateIn DeviceState.SCROLL_MODE 60000 6000 1) (idleSample 10 0)).1.currentSelection
      = POWER ∧
    (loop (stateIn DeviceState.SCROLL_MODE 60000 6000 1) (idleSample 10 0)).1.encoder = 0 ∧
    (loop (stateIn DeviceState.SCROLL_MODE 60000 6000 1) (idleSample 10 0)).1.currentState
      = DeviceState.SCROLL_MODE ∧
    (run (stateIn DeviceState.SCROLL_MODE 60000 6000 1)
      [idleSample 10 0, idleSample 11 0]).currentSelection = RETURN ∧
    trace (stateIn DeviceState.SCROLL_MODE 60000 6000 1) [idleSample 10 0, idleSample 11 0]
      = [⟨false, false⟩, ⟨false, false⟩] := by
  decide

/-- The result of `constrain` does not exceed its upper limit. -/
theorem constrain_le (amt low high : Nat) (h : low ≤ high) : constrain amt low high ≤ high := by
  unfold constrain
  split_ifs <;> omega

/-- One cycle keeps both settings below their maxima. -/
theorem loop_bounds (s : State) (i : Input)
    (hd : s.exposure_duration ≤ MAX_EXPOSURE_DURATION) (hv : s.dimmer_value ≤ MAX_DIMMER_VALUE) :
    (loop s i).1.exposure_duration ≤ MAX_EXPOSURE_DURATION ∧
    (loop s i).1.dimmer_value ≤ MAX_DIMMER_VALUE := by
  have hr1 : (rearm (encoderMove s i.ticks) i).exposure_duration = s.exposure_duration := by
    simp only [rearm, encoderMove]; split_ifs <;> rfl
  have hr2 : (rearm (encoderMove s i.ticks) i).dimmer_value = s.dimmer_value := by
    simp only [rearm, encoderMove]; split_ifs <;> rfl
  have c1 := constrain_le
  unfold loop
  simp only
  split
  · simp only [caseIdle]; split_ifs <;> simp [hr1, hr2, hd, hv]
  · simp only [caseExposure]; split_ifs <;> simp [hr1, hr2, hd, hv]
  · simp only [caseScroll, readAndReset, encoderWrite]; split_ifs <;> simp [hr1, hr2, hd, hv]
  · simp only [caseEditDuration, readAndReset]
    split_ifs <;> simp [hr1, hr2, hd, hv] <;> exact constrain_le _ _ _ (by decide)
  · simp only [caseEditPower, readAndReset]
    split_ifs <;> simp [hr1, hr2, hd, hv] <;> exact constrain_le _ _ _ (by decide)

/-- Any run keeps both settings below their maxima. -/
theorem run_bounds (is : List Input) : ∀ (s : State),
    s.exposure_duration ≤ MAX_EXPOSURE_DURATION → s.dimmer_value ≤ MAX_DIMMER_VALUE →
    (run s is).exposure_duration ≤ MAX_EXPOSURE_DURATION ∧
    (run s is).dimmer_value ≤ MAX_DIMMER_VALUE := by
  induction is with
  | nil => intro s hd hv; exact ⟨hd, hv⟩
  | cons i is ih =>
    intro s hd hv
    have h := loop_bounds s i hd hv
    exact ih _ h.1 h.2

/-- C4 (clamp invariant): after any sequence of cycles from the power-on state, whatever the
samples, time stamps and encoder movements, `exposure_duration` is within
[MIN_EXPOSURE_DURATION, MAX_EXPOSURE_DURATION] = [0, 600000] and `dimmer_value` is within
[MIN_DIMMER_VALUE, MAX_DIMMER_VALUE] = [0, 8000]. -/
theorem clamp_invariant (t0 : Nat) (is : List Input) :
    MIN_EXPOSURE_DURATION ≤ (run (powerOn t0) is).exposure_duration ∧
    (run (powerOn t0) is).exposure_duration ≤ MAX_EXPOSURE_DURATION ∧
    MIN_DIMMER_VALUE ≤ (run (powerOn t0) is).dimmer_value ∧
    (run (powerOn t0) is).dimmer_value ≤ MAX_DIMMER_VALUE := by
  have h := run_bounds is (powerOn t0) (by simp [powerOn, MAX_EXPOSURE_DURATION]) (by simp [powerOn, MAX_DIMMER_VALUE])
  exact ⟨Nat.zero_le _, h.1, Nat.zero_le _, h.2⟩

/-- C6 (exposure lifecycle): in EXPOSURE, a cycle in which the foot pedal condition is not taken,
whatever the pushbutton sample and the encoder movement, keeps the mode, the compare register,
the power setting, the start time and the duration while `millis() - exposure_start_time` is
below `exposure_duration`, and ends in IDLE with `OCR1A = 0` once it is not. -/
theorem exposure_lifecycle (s : State) (i : Input)
    (hm : s.currentState = EXPOSURE) (hp : (loop s i).2.foot_pedal = false) :
    (sub32 (millis i) s.exposure_start_time < s.exposure_duration →
      (loop s i).1.currentState = EXPOSURE ∧
      (loop s i).1.OCR1A = s.OCR1A ∧
      (loop s i).1.dimmer_value = s.dimmer_value ∧
      (loop s i).1.exposure_start_time = s.exposure_start_time ∧
      (loop s i).1.exposure_duration = s.exposure_duration) ∧
    (sub32 (millis i) s.exposure_start_time ≥ s.exposure_duration →
      (loop s i).1.currentState = IDLE ∧ (loop s i).1.OCR1A = 0) := by
  have hr : (rearm (encoderMove s i.ticks) i).currentState = EXPOSURE := by
    simp only [rearm, encoderMove]; split_ifs <;> exact hm
  unfold loop at hp ⊢
  simp only [hr] at hp ⊢
  simp only [caseExposure] at hp ⊢
  simp only [hp]
  simp only [rearm, encoderMove]
  constructor
  · intro h
    split_ifs <;> simp_all <;> omega
  · intro h
    split_ifs <;> simp_all

/-- Witness for C6: an exposure of 2000 ms started at time 0 is still running at 1999 ms with the
register at the power setting, and is over, with the register at 0, at 2000 ms. -/
theorem exposure_lifecycle_witness :
    exposing2000.currentState = EXPOSURE ∧
    (loop exposing2000 (idleSample 1999 0)).2.foot_pedal = false ∧
    sub32 (millis (idleSample 1999 0)) exposing2000.exposure_start_time
      < exposing2000.exposure_duration ∧
    (loop exposing2000 (idleSample 1999 0)).1.currentState = EXPOSURE ∧
    (loop exposing2000 (idleSample 1999 0)).1.OCR1A = 6000 ∧
    (loop exposing2000 (idleSample 2000 0)).1.currentState = IDLE ∧
    (loop exposing2000 (idleSample 2000 0)).1.OCR1A = 0 :=
  ⟨rfl, by decide, by decide,
    ((exposure_lifecycle exposing2000 (idleSample 1999 0) rfl (by decide)).1 (by decide)).1,
    ((exposure_lifecycle exposing2000 (idleSample 1999 0) rfl (by decide)).1 (by decide)).2.1,
    ((exposure_lifecycle exposing2000 (idleSample 2000 0) rfl (by decide)).2 (by decide)).1,
    ((exposure_lifecycle exposing2000 (idleSample 2000 0) rfl (by decide)).2 (by decide)).2⟩

/-- C8 (idle transitions): in IDLE, a cycle that takes the foot pedal condition ends in EXPOSURE
with `exposure_start_time = millis()` and `OCR1A = dimmer_value`, leaving `last_pushbutton`;
a cycle that takes the pushbutton condition instead ends in SCROLL_MODE with the selection
RETURN and `OCR1A` unchanged; a cycle that takes neither leaves mode, selection, settings
and `OCR1A` unchanged. -/
theorem idle_transitions (s : State) (i : Input) (hm : s.currentState = IDLE) :
    ((loop s i).2.foot_pedal = true →
      (loop s i).1.currentState = EXPOSURE ∧
      (loop s i).1.exposure_start_time = millis i ∧
      (loop s i).1.OCR1A = s.dimmer_value ∧
      (loop s i).1.dimmer_value = s.dimmer_value ∧
      (loop s i).1.last_pushbutton = s.last_pushbutton) ∧
    ((loop s i).2.foot_pedal = false → (loop s i).2.pushbutton = true →
      (loop s i).1.currentState = SCROLL_MODE ∧
      (loop s i).1.currentSelection = RETURN ∧
      (loop s i).1.OCR1A = s.OCR1A) ∧
    ((loop s i).2.foot_pedal = false → (loop s i).2.pushbutton = false →
      (loop s i).1.currentState = IDLE ∧
      (loop s i).1.currentSelection = s.currentSelection ∧
      (loop s i).1.exposure_duration = s.exposure_duration ∧
      (loop s i).1.dimmer_value = s.dimmer_value ∧
      (loop s i).1.OCR1A = s.OCR1A) := by
  rcases s with ⟨m, sel, st, d, v, br, bl, pr, pl, e, o⟩
  rcases i with ⟨n, ip, ib, t⟩
  subst hm
  cases br <;> cases pr <;> cases ip <;> cases ib <;>
    simp [loop, rearm, encoderMove, caseIdle, footPedalCond, pushbuttonCond] <;>
    split_ifs <;> simp_all

/-- A taken condition leaves its ready flag cleared, in every mode. -/
theorem fired_clears_ready (s : State) (i : Input) :
    ((loop s i).2.foot_pedal = true → (loop s i).1.foot_pedal_ready = false) ∧
    ((loop s i).2.pushbutton = true → (loop s i).1.pushbutton_ready = false) := by
  rcases s with ⟨m, sel, st, d, v, br, bl, pr, pl, e, o⟩
  rcases i with ⟨n, ip, ib, t⟩
  cases m <;> cases br <;> cases pr <;> cases ip <;> cases ib <;>
    simp [loop, rearm, encoderMove, caseIdle, caseExposure, caseScroll, caseEditDuration,
      caseEditPower, readAndReset, encoderWrite, footPedalCond, pushbuttonCond] <;>
    split_ifs <;> simp_all

/-- With the flag cleared and the foot pedal read pressed, the cycle does not fire and the flag
stays cleared. -/
theorem held_foot_pedal_stays_unready (s : State) (i : Input)
    (hr : s.foot_pedal_ready = false) (hl : i.foot_pedal = false) :
    (loop s i).2.foot_pedal = false ∧ (loop s i).1.foot_pedal_ready = false := by
  rcases s with ⟨m, sel, st, d, v, br, bl, pr, pl, e, o⟩
  rcases i with ⟨n, ip, ib, t⟩
  simp only at hr hl
  subst hr hl
  cases m <;> cases br <;> cases ib <;>
    simp [loop, rearm, encoderMove, caseIdle, caseExposure, caseScroll, caseEditDuration,
      caseEditPower, readAndReset, encoderWrite, footPedalCond, pushbuttonCond] <;>
    split_ifs <;> simp_all

/-- With the flag cleared and the pushbutton read pressed, the cycle does not fire and the flag
stays cleared. -/
theorem held_pushbutton_stays_unready (s : State) (i : Input)
    (hr : s.pushbutton_ready = false) (hl : i.pushbutton = false) :
    (loop s i).2.pushbutton = false ∧ (loop s i).1.pushbutton_ready = false := by
  rcases s with ⟨m, sel, st, d, v, br, bl, pr, pl, e, o⟩
  rcases i with ⟨n, ip, ib, t⟩
  simp only at hr hl
  subst hr hl
  cases m <;> cases pr <;> cases ip <;>
    simp [loop, rearm, encoderMove, caseIdle, caseExposure, caseScroll, caseEditDuration,
      caseEditPower, readAndReset, encoderWrite, footPedalCond, pushbuttonCond] <;>
    split_ifs <;> simp_all

/-- A run of pressed foot pedal samples from a cleared flag never fires. -/
theorem held_foot_pedal_no_fire (is : List Input) : ∀ (s : State),
    s.foot_pedal_ready = false → (∀ j ∈ is, j.foot_pedal = false) →
    footPedalFires s is = 0 := by
  induction is with
  | nil => intro s _ _; rfl
  | cons i is ih =>
    intro s hr hl
    have h := held_foot_pedal_stays_unready s i hr (hl i (List.mem_cons_self _ _))
    have h2 := ih (loop s i).1 h.2 (fun j hj => hl j (List.mem_cons_of_mem _ hj))
    simp only [footPedalFires, trace] at h2 ⊢
    rw [List.filter_cons_of_neg (by simp [h.1])]
    exact h2

/-- A run of pressed pushbutton samples from a cleared flag never fires. -/
theorem held_pushbutton_no_fire (is : List Input) : ∀ (s : State),
    s.pushbutton_ready = false → (∀ j ∈ is, j.pushbutton = false) →
    pushbuttonFires s is = 0 := by
  induction is with
  | nil => intro s _ _; rfl
  | cons i is ih =>
    intro s hr hl
    have h := held_pushbutton_stays_unready s i hr (hl i (List.mem_cons_self _ _))
    have h2 := ih (loop s i).1 h.2 (fun j hj => hl j (List.mem_cons_of_mem _ hj))
    simp only [pushbuttonFires, trace] at h2 ⊢
    rw [List.filter_cons_of_neg (by simp [h.1])]
    exact h2

/-- C9 (no auto-repeat): after a cycle that takes the condition of an input, in any mode and for
any time stamps, no later cycle takes it again as long as every sample of that line reads
pressed. -/
theorem no_auto_repeat (s : State) (i : Input) (is : List Input) :
    ((loop s i).2.foot_pedal = true → (∀ j ∈ is, j.foot_pedal = false) →
      footPedalFires (loop s i).1 is = 0) ∧
    ((loop s i).2.pushbutton = true → (∀ j ∈ is, j.pushbutton = false) →
      pushbuttonFires (loop s i).1 is = 0) :=
  ⟨fun hf hl => held_foot_pedal_no_fire is _ ((fired_clears_ready s i).1 hf) hl,
   fun hf hl => held_pushbutton_no_fire is _ ((fired_clears_ready s i).2 hf) hl⟩

/-- In IDLE a cycle without event stays in IDLE and leaves `OCR1A`. -/
theorem idle_quiet_step (s : State) (i : Input) (hm : s.currentState = IDLE)
    (hq : (loop s i).2.foot_pedal = false ∧ (loop s i).2.pushbutton = false) :
    (loop s i).1.currentState = IDLE ∧ (loop s i).1.OCR1A = s.OCR1A := by
  rcases s with ⟨m, sel, st, d, v, br, bl, pr, pl, e, o⟩
  rcases i with ⟨n, ip, ib, t⟩
  subst hm
  revert hq
  cases br <;> cases pr <;> cases ip <;> cases ib <;>
    simp [loop, rearm, encoderMove, caseIdle, footPedalCond, pushbuttonCond] <;>
    split_ifs <;> simp_all

/-- In IDLE a run without events stays in IDLE and leaves `OCR1A`. -/
theorem idle_quiet_run (is : List Input) : ∀ (s : State),
    s.currentState = IDLE → quiet s is →
    (run s is).currentState = IDLE ∧ (run s is).OCR1A = s.OCR1A := by
  induction is with
  | nil => intro s hm _; exact ⟨hm, rfl⟩
  | cons i is ih =>
    intro s hm hq
    have h1 := idle_quiet_step s i hm (hq _ (by simp [trace]))
    have h2 := ih (loop s i).1 h1.1 (fun f hf => hq f (by simp [trace, hf]))
    simp only [run]
    exact ⟨h2.1, h2.2.trans h1.2⟩

/-- In EXPOSURE a cycle that takes the foot pedal condition ends in IDLE with `OCR1A = 0`. -/
theorem exposure_pedal_step (s : State) (i : Input) (hm : s.currentState = EXPOSURE)
    (hp : (loop s i).2.foot_pedal = true) :
    (loop s i).1.currentState = IDLE ∧ (loop s i).1.OCR1A = 0 := by
  rcases s with ⟨m, sel, st, d, v, br, bl, pr, pl, e, o⟩
  rcases i with ⟨n, ip, ib, t⟩
  subst hm
  revert hp
  cases br <;> cases pr <;> cases ip <;> cases ib <;>
    simp [loop, rearm, encoderMove, caseExposure, footPedalCond, pushbuttonCond] <;>
    split_ifs <;> simp_all

/-- C7 (pedal abort): in EXPOSURE, a cycle that takes the foot pedal condition (in particular
one before the timeout) ends in IDLE with `OCR1A = 0`, and every later run of cycles without
pedal or button event, at whatever time stamps, is still in IDLE with `OCR1A = 0`. -/
theorem pedal_abort (s : State) (i : Input) (hm : s.currentState = EXPOSURE)
    (hp : (loop s i).2.foot_pedal = true) :
    (loop s i).1.currentState = IDLE ∧ (loop s i).1.OCR1A = 0 ∧
    ∀ is : List Input, quiet (loop s i).1 is →
      (run (loop s i).1 is).currentState = IDLE ∧ (run (loop s i).1 is).OCR1A = 0 := by
  have h := exposure_pedal_step s i hm hp
  refine ⟨h.1, h.2, fun is hq => ?_⟩
  have h2 := idle_quiet_run is _ h.1 hq
  exact ⟨h2.1, h2.2.trans h.2⟩

/-- C10 (gate step rule): where the foot pedal is polled (IDLE, EXPOSURE) and where the
pushbutton is polled (SCROLL_MODE, EDIT_DURATION, EDIT_POWER, and IDLE when the foot pedal
condition is not taken), the condition is taken exactly when the ready flag is set, the line
reads pressed and `millis() - last > 50`; then the flag is cleared and `last` becomes
`millis()`; otherwise `last` is unchanged and the flag is set exactly if it was set or the
line reads released. -/
theorem loop_gate_step (s : State) (i : Input) :
    ((s.currentState = IDLE ∨ s.currentState = EXPOSURE) →
      GateStep s.foot_pedal_ready i.foot_pedal s.last_foot_pedal (millis i)
        (loop s i).2.foot_pedal (loop s i).1.foot_pedal_ready (loop s i).1.last_foot_pedal) ∧
    ((s.currentState = SCROLL_MODE ∨ s.currentState = EDIT_DURATION ∨
        s.currentState = EDIT_POWER ∨
        (s.currentState = IDLE ∧ (loop s i).2.foot_pedal = false)) →
      GateStep s.pushbutton_ready i.pushbutton s.last_pushbutton (millis i)
        (loop s i).2.pushbutton (loop s i).1.pushbutton_ready (loop s i).1.last_pushbutton) := by
  rcases s with ⟨m, sel, st, d, v, br, bl, pr, pl, e, o⟩
  rcases i with ⟨n, ip, ib, t⟩
  cases m <;> cases br <;> cases pr <;> cases ip <;> cases ib <;>
    simp [GateStep, loop, rearm, encoderMove, caseIdle, caseExposure, caseScroll, caseEditDuration,
      caseEditPower, readAndReset, encoderWrite, footPedalCond, pushbuttonCond] <;>
    split_ifs <;> simp_all

/-- Witness for C7: exposure of 2000 ms started at time 0, pedal pressed at 500 ms, and a later
cycle at 2000 ms without event. -/
theorem pedal_abort_witness :
    exposing2000.currentState = DeviceState.EXPOSURE ∧
    (loop exposing2000 (pedalSample 500 false)).2.foot_pedal = true ∧
    (loop exposing2000 (pedalSample 500 false)).1.currentState = DeviceState.IDLE ∧
    (loop exposing2000 (pedalSample 500 false)).1.OCR1A = 0 ∧
    quiet (loop exposing2000 (pedalSample 500 false)).1 [idleSample 2000 0] ∧
    (run (loop exposing2000 (pedalSample 500 false)).1 [idleSample 2000 0]).currentState
      = DeviceState.IDLE ∧
    (run (loop exposing2000 (pedalSample 500 false)).1 [idleSample 2000 0]).OCR1A = 0 :=
  ⟨rfl, by decide,
    (pedal_abort exposing2000 (pedalSample 500 false) rfl (by decide)).1,
    (pedal_abort exposing2000 (pedalSample 500 false) rfl (by decide)).2.1,
    by decide,
    ((pedal_abort exposing2000 (pedalSample 500 false) rfl (by decide)).2.2 _ (by decide)).1,
    ((pedal_abort exposing2000 (pedalSample 500 false) rfl (by decide)).2.2 _ (by decide)).2⟩

/-- Witness for C8: from power-on at time 0, a pedal press at 60 ms starts the exposure with the
default power, and a button press at 60 ms opens the menu. -/
theorem idle_transitions_witness :
    (powerOn 0).currentState = DeviceState.IDLE ∧
    (loop (powerOn 0) (pedalSample 60 false)).2.foot_pedal = true ∧
    (loop (powerOn 0) (pedalSample 60 false)).1.currentState = DeviceState.EXPOSURE ∧
    (loop (powerOn 0) (pedalSample 60 false)).1.exposure_start_time = 60 ∧
    (loop (powerOn 0) (pedalSample 60 false)).1.OCR1A = 6000 ∧
    (loop (powerOn 0) ⟨60, true, false, 0⟩).2.pushbutton = true ∧
    (loop (powerOn 0) ⟨60, true, false, 0⟩).1.currentState = DeviceState.SCROLL_MODE :=
  ⟨rfl, by decide,
    ((idle_transitions (powerOn 0) (pedalSample 60 false) rfl).1 (by decide)).1,
    ((idle_transitions (powerOn 0) (pedalSample 60 false) rfl).1 (by decide)).2.1,
    ((idle_transitions (powerOn 0) (pedalSample 60 false) rfl).1 (by decide)).2.2.1,
    by decide,
    ((idle_transitions (powerOn 0) ⟨60, true, false, 0⟩ rfl).2.1 (by decide) (by decide)).1⟩

/-- Witness for C9: from power-on at time 0 the pedal is pressed at 60 ms and held; the cycles at
200 ms and 5000 ms do not fire. -/
theorem no_auto_repeat_witness :
    (loop (powerOn 0) (pedalSample 60 false)).2.foot_pedal = true ∧
    (∀ j ∈ [pedalSample 200 false, pedalSample 5000 false], j.foot_pedal = false) ∧
    footPedalFires (loop (powerOn 0) (pedalSample 60 false)).1
      [pedalSample 200 false, pedalSample 5000 false] = 0 :=
  ⟨by decide, by decide,
    (no_auto_repeat (powerOn 0) (pedalSample 60 false)
      [pedalSample 200 false, pedalSample 5000 false]).1 (by decide) (by decide)⟩

/-- Witness for C10: the foot pedal gate in IDLE at a press 60 ms after power-on, and the
pushbutton gate in SCROLL_MODE at the same press. -/
theorem loop_gate_step_witness :
    (powerOn 0).currentState = DeviceState.IDLE ∧
    GateStep (powerOn 0).foot_pedal_ready false (powerOn 0).last_foot_pedal 60
      (loop (powerOn 0) (pedalSample 60 false)).2.foot_pedal
      (loop (powerOn 0) (pedalSample 60 false)).1.foot_pedal_ready
      (loop (powerOn 0) (pedalSample 60 false)).1.last_foot_pedal ∧
    (stateIn DeviceState.SCROLL_MODE 60000 6000 0).currentState = DeviceState.SCROLL_MODE ∧
    GateStep true false 0 60
      (loop (stateIn DeviceState.SCROLL_MODE 60000 6000 0) ⟨60, true, false, 0⟩).2.pushbutton
      (loop (stateIn DeviceState.SCROLL_MODE 60000 6000 0) ⟨60, true, false, 0⟩).1.pushbutton_ready
      (loop (stateIn DeviceState.SCROLL_MODE 60000 6000 0) ⟨60, true, false, 0⟩).1.last_pushbutton :=
  ⟨rfl, (loop_gate_step (powerOn 0) (pedalSample 60 false)).1 (Or.inl rfl),
    rfl, (loop_gate_step (stateIn DeviceState.SCROLL_MODE 60000 6000 0)
      ⟨60, true, false, 0⟩).2 (Or.inl rfl)⟩

/-- The value stored by a cycle in EDIT_DURATION, in terms of the ticks read. -/
theorem edit_duration_value (s : State) (i : Input) (hm : s.currentState = EDIT_DURATION) :
    (loop s i).1.exposure_duration =
      constrain (toULong ((s.exposure_duration : Int) +
        toInt32 (toInt32 (s.encoder + i.ticks) * ENCODER_STEP_DURATION)))
        MIN_EXPOSURE_DURATION MAX_EXPOSURE_DURATION := by
  rcases s with ⟨m, sel, st, d, v, br, bl, pr, pl, e, o⟩
  rcases i with ⟨n, ip, ib, t⟩
  subst hm
  cases br <;> cases pr <;> cases ip <;> cases ib <;>
    simp [loop, rearm, encoderMove, caseEditDuration, readAndReset, pushbuttonCond] <;>
    split_ifs <;> simp_all

/-- The value stored by a cycle in EDIT_POWER, in terms of the ticks read. -/
theorem edit_power_value (s : State) (i : Input) (hm : s.currentState = EDIT_POWER) :
    (loop s i).1.dimmer_value =
      constrain (toUInt16 (toInt32 ((s.dimmer_value : Int) +
        toInt32 (toInt32 (s.encoder + i.ticks) * ENCODER_STEP_POWER))))
        MIN_DIMMER_VALUE MAX_DIMMER_VALUE := by
  rcases s with ⟨m, sel, st, d, v, br, bl, pr, pl, e, o⟩
  rcases i with ⟨n, ip, ib, t⟩
  subst hm
  cases br <;> cases pr <;> cases ip <;> cases ib <;>
    simp [loop, rearm, encoderMove, caseEditPower, readAndReset, pushbuttonCond] <;>
    split_ifs <;> simp_all

/-- Where the sum `d + 250 * k` is not negative (and the product fits an `int32_t`), a cycle in
EDIT_DURATION stores the saturating clamp of the specification. -/
theorem edit_duration_clamps_nonneg (s : State) (i : Input) (k : Int)
    (hm : s.currentState = EDIT_DURATION) (hk : toInt32 (s.encoder + i.ticks) = k)
    (hd : s.exposure_duration ≤ MAX_EXPOSURE_DURATION)
    (hlo : -2147483648 ≤ k * 250) (hhi : k * 250 < 2147483648)
    (hs : 0 ≤ (s.exposure_duration : Int) + k * 250) :
    ((loop s i).1.exposure_duration : Int) =
      specAccumulate k 250 s.exposure_duration 0 600000 := by
  rw [edit_duration_value s i hm, hk]
  simp only [constrain, toULong, toInt32, specAccumulate, ENCODER_STEP_DURATION,
    MIN_EXPOSURE_DURATION, MAX_EXPOSURE_DURATION] at *
  split_ifs <;> omega

/-- Where the sum `d + 250 * k` is negative (and the product fits an `int32_t`), a cycle in
EDIT_DURATION stores the maximum. -/
theorem edit_duration_negative_gives_max (s : State) (i : Input) (k : Int)
    (hm : s.currentState = EDIT_DURATION) (hk : toInt32 (s.encoder + i.ticks) = k)
    (hd : s.exposure_duration ≤ MAX_EXPOSURE_DURATION)
    (hlo : -2147483648 ≤ k * 250)
    (hs : (s.exposure_duration : Int) + k * 250 < 0) :
    (loop s i).1.exposure_duration = MAX_EXPOSURE_DURATION := by
  rw [edit_duration_value s i hm, hk]
  simp only [constrain, toULong, toInt32, ENCODER_STEP_DURATION,
    MIN_EXPOSURE_DURATION, MAX_EXPOSURE_DURATION] at *
  split_ifs <;> omega

/-- Where the sum `v + 10 * k` lies in `[0, 65535]`, a cycle in EDIT_POWER stores the saturating
clamp of the specification. -/
theorem edit_power_clamps_in_range (s : State) (i : Input) (k : Int)
    (hm : s.currentState = EDIT_POWER) (hk : toInt32 (s.encoder + i.ticks) = k)
    (hs : 0 ≤ (s.dimmer_value : Int) + k * 10) (hs2 : (s.dimmer_value : Int) + k * 10 < 65536) :
    ((loop s i).1.dimmer_value : Int) = specAccumulate k 10 s.dimmer_value 0 8000 := by
  rw [edit_power_value s i hm, hk]
  simp only [constrain, toUInt16, toInt32, specAccumulate, ENCODER_STEP_POWER,
    MIN_DIMMER_VALUE, MAX_DIMMER_VALUE] at *
  split_ifs <;> omega

/-- Where the sum `v + 10 * k` lies in `[-57535, -1]`, a cycle in EDIT_POWER stores the
maximum. -/
theorem edit_power_negative_gives_max (s : State) (i : Input) (k : Int)
    (hm : s.currentState = EDIT_POWER) (hk : toInt32 (s.encoder + i.ticks) = k)
    (hs : -57536 < (s.dimmer_value : Int) + k * 10) (hs2 : (s.dimmer_value : Int) + k * 10 < 0) :
    (loop s i).1.dimmer_value = MAX_DIMMER_VALUE := by
  rw [edit_power_value s i hm, hk]
  simp only [constrain, toUInt16, toInt32, ENCODER_STEP_POWER,
    MIN_DIMMER_VALUE, MAX_DIMMER_VALUE] at *
  split_ifs <;> omega

/-- A cycle in SCROLL_MODE that takes no pushbutton event selects by the ticks read and leaves
the encoder at zero. -/
theorem scroll_mode_selection (s : State) (i : Input) (hm : s.currentState = SCROLL_MODE) :
    ((loop s i).2.pushbutton = false →
      (loop s i).1.currentSelection = selectionOf (toInt32 (s.encoder + i.ticks)) ∧
      (loop s i).1.encoder = 0 ∧ (loop s i).1.currentState = SCROLL_MODE) := by
  rcases s with ⟨m, sel, st, d, v, br, bl, pr, pl, e, o⟩
  rcases i with ⟨n, ip, ib, t⟩
  subst hm
  cases br <;> cases pr <;> cases ip <;> cases ib <;>
    simp [loop, rearm, encoderMove, caseScroll, readAndReset, encoderWrite, pushbuttonCond] <;>
    split_ifs <;> simp_all

/-! ### Frame conditions, menu, display and illumination -/

/-- The truncating remainder by 3 of a negative integer. -/
theorem tmod_three_of_neg (n : Int) (h : n < 0) : Int.tmod n 3 = -((-n) % 3) := by
  obtain ⟨m, rfl⟩ := Int.eq_negSucc_of_lt_zero h
  show -Int.ofNat ((m + 1) % 3) = _
  have : (-Int.negSucc m) = ((m + 1 : Nat) : Int) := rfl
  rw [this]
  simp

/-- The truncating remainder by 3 of a non-negative integer. -/
theorem tmod_three_of_nonneg (k : Int) (h : 0 ≤ k) : Int.tmod k 3 = k % 3 :=
  Int.tmod_eq_emod h (by omega)

/-- The selection expression computes the non-negative remainder. -/
theorem selectionOf_eq_emod (n : Int) : selectionOf n = n % 3 := by
  unfold selectionOf
  change @Eq Int _ _
  rcases Int.lt_or_le n 0 with h | h
  · rw [tmod_three_of_neg n h, tmod_three_of_nonneg _ (by omega)]
    omega
  · rw [tmod_three_of_nonneg n h, tmod_three_of_nonneg _ (by omega)]
    omega

/-- A cycle outside EDIT_DURATION keeps `exposure_duration`; one outside EDIT_POWER keeps
`dimmer_value`. -/
theorem loop_keeps_settings (s : State) (i : Input) :
    (s.currentState ≠ EDIT_DURATION →
      (loop s i).1.exposure_duration = s.exposure_duration) ∧
    (s.currentState ≠ EDIT_POWER → (loop s i).1.dimmer_value = s.dimmer_value) := by
  rcases s with ⟨m, sel, st, d, v, br, bl, pr, pl, e, o⟩
  rcases i with ⟨n, ip, ib, t⟩
  cases m <;> cases br <;> cases pr <;> cases ip <;> cases ib <;>
    simp [loop, rearm, encoderMove, caseIdle, caseExposure, caseScroll, caseEditDuration,
      caseEditPower, readAndReset, encoderWrite, footPedalCond, pushbuttonCond] <;>
    split_ifs <;> simp_all

/-- The switch on the selection in a confirming cycle of SCROLL_MODE. -/
theorem scroll_confirm_step (s : State) (i : Input) (hm : s.currentState = SCROLL_MODE)
    (hf : (loop s i).2.pushbutton = true) :
    (loop s i).1.currentSelection = selectionOf (toInt32 (s.encoder + i.ticks)) ∧
    ((loop s i).1.currentSelection = DURATION →
      (loop s i).1.currentState = EDIT_DURATION ∧ (loop s i).1.encoder = 0) ∧
    ((loop s i).1.currentSelection = POWER →
      (loop s i).1.currentState = EDIT_POWER ∧ (loop s i).1.encoder = 0) ∧
    ((loop s i).1.currentSelection = RETURN → (loop s i).1.currentState = IDLE) := by
  revert hf
  rcases s with ⟨m, sel, st, d, v, br, bl, pr, pl, e, o⟩
  rcases i with ⟨n, ip, ib, t⟩
  subst hm
  cases br <;> cases pr <;> cases ip <;> cases ib <;>
    simp [loop, rearm, encoderMove, caseScroll, readAndReset, encoderWrite, pushbuttonCond,
      DURATION, POWER, RETURN, toInt32] <;>
    (try split_ifs) <;> simp_all

/-- The unsigned difference of a value with itself is zero. -/
theorem sub32_self (a : Nat) : sub32 a a = 0 := by
  simp only [sub32, ULONG]; omega

/-- With the elapsed time at most the duration, `start + duration - now` in `unsigned long` is the
duration minus the elapsed time. -/
theorem sub32_add_sub (st d now : Nat) (h1 : st < ULONG) (h2 : d < ULONG)
    (h4 : sub32 now st ≤ d) :
    sub32 ((st + d) % ULONG) now = d - sub32 now st := by
  simp only [sub32, ULONG] at *
  omega

/-- A cycle ends in EXPOSURE only from IDLE, with the start time set to `millis()`, or from
EXPOSURE before the timeout. -/
theorem exposure_only_from (s : State) (i : Input)
    (hm : (loop s i).1.currentState = EXPOSURE) :
    (s.currentState = IDLE ∧ (loop s i).1.exposure_start_time = millis i) ∨
    (s.currentState = EXPOSURE ∧ (loop s i).1.exposure_start_time = s.exposure_start_time ∧
      ¬ sub32 (millis i) s.exposure_start_time ≥ s.exposure_duration) := by
  revert hm
  rcases s with ⟨m, sel, st, d, v, br, bl, pr, pl, e, o⟩
  rcases i with ⟨n, ip, ib, t⟩
  cases m <;> cases br <;> cases pr <;> cases ip <;> cases ib <;>
    simp [loop, rearm, encoderMove, caseIdle, caseExposure, caseScroll,
      caseEditDuration, caseEditPower, readAndReset, encoderWrite, footPedalCond,
      pushbuttonCond] <;>
    (try split_ifs) <;> simp_all

/-- At the end of a cycle that ends in EXPOSURE the elapsed time does not exceed the duration. -/
theorem exposure_after_cycle (s : State) (i : Input)
    (hm : (loop s i).1.currentState = EXPOSURE)
    (hst : s.exposure_start_time < ULONG) :
    (loop s i).1.exposure_start_time < ULONG ∧
    (loop s i).1.exposure_duration = s.exposure_duration ∧
    sub32 (millis i) (loop s i).1.exposure_start_time ≤ (loop s i).1.exposure_duration := by
  have hnow : millis i < ULONG := Nat.mod_lt _ (by decide)
  rcases exposure_only_from s i hm with ⟨h1, h2⟩ | ⟨h1, h2, h3⟩
  · have hk := (loop_keeps_settings s i).1 (by rw [h1]; decide)
    rw [h2, hk, sub32_self]
    exact ⟨hnow, rfl, Nat.zero_le _⟩
  · have hk := (loop_keeps_settings s i).1 (by rw [h1]; decide)
    rw [h2, hk]
    exact ⟨hst, rfl, by omega⟩

/-- One cycle keeps `dimmer_value` below its maximum. -/
theorem loop_bounds_dimmer (s : State) (i : Input) (hv : s.dimmer_value ≤ MAX_DIMMER_VALUE) :
    (loop s i).1.dimmer_value ≤ MAX_DIMMER_VALUE := by
  have hr2 : (rearm (encoderMove s i.ticks) i).dimmer_value = s.dimmer_value := by
    simp only [rearm, encoderMove]; split_ifs <;> rfl
  unfold loop
  simp only
  split
  · simp only [caseIdle]; split_ifs <;> simp [hr2, hv]
  · simp only [caseExposure]; split_ifs <;> simp [hr2, hv]
  · simp only [caseScroll, readAndReset, encoderWrite]; split_ifs <;> simp [hr2, hv]
  · simp only [caseEditDuration, readAndReset]; split_ifs <;> simp [hr2, hv]
  · simp only [caseEditPower, readAndReset]
    split_ifs <;> simp [hr2, hv] <;> exact constrain_le _ _ _ (by decide)

/-- One cycle keeps the relation between the mode and `OCR1A`. -/
theorem loop_illumination_register (s : State) (i : Input)
    (h1 : s.currentState ≠ EXPOSURE → s.OCR1A = 0)
    (h2 : s.currentState = EXPOSURE → s.OCR1A = s.dimmer_value) :
    ((loop s i).1.currentState ≠ EXPOSURE → (loop s i).1.OCR1A = 0) ∧
    ((loop s i).1.currentState = EXPOSURE → (loop s i).1.OCR1A = (loop s i).1.dimmer_value) := by
  revert h1 h2
  rcases s with ⟨m, sel, st, d, v, br, bl, pr, pl, e, o⟩
  rcases i with ⟨n, ip, ib, t⟩
  cases m <;> cases br <;> cases pr <;> cases ip <;> cases ib <;>
    simp [loop, rearm, encoderMove, caseIdle, caseExposure, caseScroll,
      caseEditDuration, caseEditPower, readAndReset, encoderWrite, footPedalCond,
      pushbuttonCond] <;>
    (try split_ifs) <;> simp_all

/-- One cycle keeps the illumination invariant. -/
theorem loop_illumination (s : State) (i : Input) (h : IlluminationOff s) :
    IlluminationOff (loop s i).1 :=
  ⟨(loop_illumination_register s i h.1 h.2.1).1, (loop_illumination_register s i h.1 h.2.1).2,
    loop_bounds_dimmer s i h.2.2⟩

/-- Any run keeps the illumination invariant. -/
theorem run_illumination (is : List Input) : ∀ s : State,
    IlluminationOff s → IlluminationOff (run s is) := by
  induction is with
  | nil => intro s h; exact h
  | cons i is ih => intro s h; exact ih _ (loop_illumination s i h)

/-- C11 (duty register written on edges only): a cycle that goes neither from IDLE to EXPOSURE nor
from EXPOSURE to IDLE leaves `OCR1A`; a cycle from IDLE to EXPOSURE sets it to `dimmer_value`;
a cycle from EXPOSURE to IDLE sets it to 0; in particular a cycle in EDIT_POWER, which may
change `dimmer_value`, leaves `OCR1A`. -/
theorem duty_written_on_edges (s : State) (i : Input) :
    (¬(s.currentState = IDLE ∧ (loop s i).1.currentState = EXPOSURE) →
      ¬(s.currentState = EXPOSURE ∧ (loop s i).1.currentState = IDLE) →
      (loop s i).1.OCR1A = s.OCR1A) ∧
    (s.currentState = IDLE → (loop s i).1.currentState = EXPOSURE →
      (loop s i).1.OCR1A = s.dimmer_value ∧ (loop s i).1.dimmer_value = s.dimmer_value) ∧
    (s.currentState = EXPOSURE → (loop s i).1.currentState = IDLE →
      (loop s i).1.OCR1A = 0) ∧
    (s.currentState = EDIT_POWER → (loop s i).1.OCR1A = s.OCR1A) := by
  rcases s with ⟨m, sel, st, d, v, br, bl, pr, pl, e, o⟩
  rcases i with ⟨n, ip, ib, t⟩
  cases m <;> cases br <;> cases pr <;> cases ip <;> cases ib <;>
    simp [loop, rearm, encoderMove, caseIdle, caseExposure, caseScroll, caseEditDuration,
      caseEditPower, readAndReset, encoderWrite, footPedalCond, pushbuttonCond] <;>
    split_ifs <;> simp_all

/-- C12 (settings change only in their edit mode): a cycle that does not start in EDIT_DURATION
leaves `exposure_duration`, and a cycle that does not start in EDIT_POWER leaves `dimmer_value`,
whatever the inputs and the encoder movement. -/
theorem settings_frame (s : State) (i : Input) :
    (s.currentState ≠ EDIT_DURATION →
      (loop s i).1.exposure_duration = s.exposure_duration) ∧
    (s.currentState ≠ EDIT_POWER → (loop s i).1.dimmer_value = s.dimmer_value) := by
  rcases s with ⟨m, sel, st, d, v, br, bl, pr, pl, e, o⟩
  rcases i with ⟨n, ip, ib, t⟩
  cases m <;> cases br <;> cases pr <;> cases ip <;> cases ib <;>
    simp [loop, rearm, encoderMove, caseIdle, caseExposure, caseScroll, caseEditDuration,
      caseEditPower, readAndReset, encoderWrite, footPedalCond, pushbuttonCond] <;>
    split_ifs <;> simp_all

/-- C13 (menu wrap): for every integer `n`, in particular every `int32_t`, the selection
`(n % 3 + 3) % 3` computed with the truncating remainder equals the non-negative `n mod 3`,
so it is one of 0 = RETURN, 1 = POWER, 2 = DURATION; the intermediate sum does not overflow. -/
theorem menu_wrap (n : Int) :
    selectionOf n = n % 3 ∧ 0 ≤ selectionOf n ∧ selectionOf n < 3 ∧
    (selectionOf n = RETURN ∨ selectionOf n = POWER ∨ selectionOf n = DURATION) ∧
    toInt32 (Int.tmod n 3 + 3) = Int.tmod n 3 + 3 := by
  have h : @Eq Int (selectionOf n) (n % 3) := selectionOf_eq_emod n
  have h3 : -3 < Int.tmod n 3 ∧ Int.tmod n 3 < 3 := by
    rcases Int.lt_or_le n 0 with h | h
    · rw [tmod_three_of_neg n h]; omega
    · rw [tmod_three_of_nonneg n h]; omega
  have h0 : (0 : Int) ≤ n % 3 := by omega
  have h2 : n % 3 < 3 := by omega
  refine ⟨h, ?_, ?_, ?_, ?_⟩
  · rw [h]; exact h0
  · rw [h]; exact h2
  · rw [h]
    simp only [RETURN, POWER, DURATION]
    change @Eq Int _ _ ∨ @Eq Int _ _ ∨ @Eq Int _ _
    omega
  · unfold toInt32; omega

/-- C14 (menu confirm): in SCROLL_MODE a cycle `i` that takes the pushbutton condition, with the
selection computed in that cycle from the ticks read: DURATION leads to EDIT_DURATION with the
encoder at 0, POWER to EDIT_POWER with the encoder at 0, RETURN to IDLE; and the next cycle `j`,
if the encoder has not moved, leaves the edited setting (a setting within its clamp range)
unchanged. -/
theorem menu_confirm (s : State) (i j : Input) (hm : s.currentState = SCROLL_MODE)
    (hf : (loop s i).2.pushbutton = true) :
    (loop s i).1.currentSelection = selectionOf (toInt32 (s.encoder + i.ticks)) ∧
    ((loop s i).1.currentSelection = DURATION →
      (loop s i).1.currentState = EDIT_DURATION ∧ (loop s i).1.encoder = 0) ∧
    ((loop s i).1.currentSelection = POWER →
      (loop s i).1.currentState = EDIT_POWER ∧ (loop s i).1.encoder = 0) ∧
    ((loop s i).1.currentSelection = RETURN → (loop s i).1.currentState = IDLE) ∧
    ((loop s i).1.currentSelection = DURATION → j.ticks = 0 →
      s.exposure_duration ≤ MAX_EXPOSURE_DURATION →
      (loop (loop s i).1 j).1.exposure_duration = s.exposure_duration) ∧
    ((loop s i).1.currentSelection = POWER → j.ticks = 0 →
      s.dimmer_value ≤ MAX_DIMMER_VALUE →
      (loop (loop s i).1 j).1.dimmer_value = s.dimmer_value) := by
  have h := scroll_confirm_step s i hm hf
  have hk := loop_keeps_settings s i
  have hk1 := hk.1 (by rw [hm]; decide)
  have hk2 := hk.2 (by rw [hm]; decide)
  refine ⟨h.1, h.2.1, h.2.2.1, h.2.2.2, ?_, ?_⟩
  · intro hsel ht hd
    have h1 := h.2.1 hsel
    rw [edit_duration_value _ j h1.1, h1.2, ht, hk1]
    simp only [constrain, toULong, toInt32, ENCODER_STEP_DURATION, MIN_EXPOSURE_DURATION,
      MAX_EXPOSURE_DURATION] at *
    split_ifs <;> omega
  · intro hsel ht hd
    have h1 := h.2.2.1 hsel
    rw [edit_power_value _ j h1.1, h1.2, ht, hk2]
    simp only [constrain, toUInt16, toInt32, ENCODER_STEP_POWER, MIN_DIMMER_VALUE,
      MAX_DIMMER_VALUE] at *
    split_ifs <;> omega

/-- C15 (pedal ignored in menu modes): in SCROLL_MODE, EDIT_DURATION and EDIT_POWER two cycles that
differ only in the foot pedal sample end with the same mode, selection, settings, `OCR1A`
(which is the one before the cycle), exposure start time, pushbutton gate state, encoder
position and events. -/
theorem pedal_ignored_in_menu (s : State) (i j : Input)
    (hm : s.currentState = SCROLL_MODE ∨ s.currentState = EDIT_DURATION ∨
      s.currentState = EDIT_POWER)
    (hn : i.now = j.now) (hb : i.pushbutton = j.pushbutton) (ht : i.ticks = j.ticks) :
    (loop s i).1.currentState = (loop s j).1.currentState ∧
    (loop s i).1.currentSelection = (loop s j).1.currentSelection ∧
    (loop s i).1.exposure_duration = (loop s j).1.exposure_duration ∧
    (loop s i).1.dimmer_value = (loop s j).1.dimmer_value ∧
    (loop s i).1.OCR1A = (loop s j).1.OCR1A ∧
    (loop s i).1.OCR1A = s.OCR1A ∧
    (loop s i).1.exposure_start_time = (loop s j).1.exposure_start_time ∧
    (loop s i).1.pushbutton_ready = (loop s j).1.pushbutton_ready ∧
    (loop s i).1.last_pushbutton = (loop s j).1.last_pushbutton ∧
    (loop s i).1.encoder = (loop s j).1.encoder ∧
    (loop s i).2 = (loop s j).2 := by
  rcases s with ⟨m, sel, st, d, v, br, bl, pr, pl, e, o⟩
  rcases i with ⟨n, ip, ib, t⟩
  rcases j with ⟨n2, jp, jb, t2⟩
  simp only at hn hb ht hm
  subst hn hb ht
  rcases hm with hm | hm | hm <;> subst hm <;>
    cases br <;> cases pr <;> cases ip <;> cases jp <;> cases ib <;>
    simp [loop, rearm, encoderMove, caseScroll, caseEditDuration,
      caseEditPower, readAndReset, encoderWrite, footPedalCond, pushbuttonCond, millis] <;>
    split_ifs <;> simp_all

/-- C16 (power display conversion): with `dimmer_value` at most 8000, `DIMMER_PER_WATT` is 400 and
the whole part `w` and the tenths digit `t` printed by `display_power_and_duration` satisfy
`10 * w + t = floor(10 * v / 400)`, `t ≤ 9`, `w ≤ 20`, and the product `(v % 400) * 10` fits
16 bits. -/
theorem power_display (s : State) (hv : s.dimmer_value ≤ MAX_DIMMER_VALUE) :
    DIMMER_PER_WATT = 400 ∧
    10 * (display_power_and_duration s).power_whole + (display_power_and_duration s).power_decimal
      = 10 * s.dimmer_value / 400 ∧
    (display_power_and_duration s).power_decimal ≤ 9 ∧
    (display_power_and_duration s).power_whole ≤ 20 ∧
    (s.dimmer_value % DIMMER_PER_WATT) * 10 < 65536 := by
  have h400 : DIMMER_PER_WATT = 400 := by decide
  have hv2 : s.dimmer_value ≤ 8000 := hv
  have hr : s.dimmer_value % 400 * 10 < 65536 := by omega
  have hm : s.dimmer_value % 400 * 10 % 65536 = s.dimmer_value % 400 * 10 :=
    Nat.mod_eq_of_lt hr
  refine ⟨h400, ?_, ?_, ?_, ?_⟩ <;> simp only [display_power_and_duration, h400, hm] <;> omega

/-- C17 (remaining-time display): at the end of a cycle that ends in EXPOSURE, with the same clock
value, the elapsed time does not exceed the duration, so the value shown
`(exposure_start_time + exposure_duration - millis()) / 1000` in `unsigned long` is
`floor((exposure_duration - elapsed) / 1000)`, at most 600 when the duration is within its
clamp range; this is what `update_display` draws when it redraws. The variables hold
`unsigned long` values. -/
theorem remaining_time_display (s : State) (i : Input)
    (hm : (loop s i).1.currentState = EXPOSURE)
    (hst : s.exposure_start_time < ULONG) (hd : s.exposure_duration < ULONG) :
    sub32 (millis i) (loop s i).1.exposure_start_time ≤ (loop s i).1.exposure_duration ∧
    remainingSeconds (loop s i).1 (millis i) =
      ((loop s i).1.exposure_duration
        - sub32 (millis i) (loop s i).1.exposure_start_time) / 1000 ∧
    ((loop s i).1.exposure_duration ≤ MAX_EXPOSURE_DURATION →
      remainingSeconds (loop s i).1 (millis i) ≤ 600) ∧
    (∀ last : Nat, DISPLAY_UPDATE_INTERVAL ≤ sub32 (millis i) last →
      (update_display last (loop s i).1 i).1 =
        some (Screen.exposure (((loop s i).1.exposure_duration
          - sub32 (millis i) (loop s i).1.exposure_start_time) / 1000))) := by
  have hnow : millis i < ULONG := Nat.mod_lt _ (by decide)
  obtain ⟨h1, h2, h3⟩ := exposure_after_cycle s i hm hst
  have hrem : remainingSeconds (loop s i).1 (millis i) =
      ((loop s i).1.exposure_duration
        - sub32 (millis i) (loop s i).1.exposure_start_time) / 1000 := by
    unfold remainingSeconds
    rw [sub32_add_sub _ _ _ h1 (h2 ▸ hd) h3]
  refine ⟨h3, hrem, fun hmax => ?_, fun last hl => ?_⟩
  · rw [hrem]
    simp only [MAX_EXPOSURE_DURATION] at hmax
    omega
  · unfold update_display
    rw [if_neg (by omega), hm, hrem]

/-- C19 (illumination-off invariant): after any run from the power-on state, `OCR1A` is 0 when the
mode is not EXPOSURE, and equals `dimmer_value`, hence is at most 8000, when it is. -/
theorem illumination_off_invariant (t0 : Nat) (is : List Input) :
    ((run (powerOn t0) is).currentState ≠ EXPOSURE → (run (powerOn t0) is).OCR1A = 0) ∧
    ((run (powerOn t0) is).currentState = EXPOSURE →
      (run (powerOn t0) is).OCR1A = (run (powerOn t0) is).dimmer_value ∧
      (run (powerOn t0) is).OCR1A ≤ MAX_DIMMER_VALUE) := by
  have h : IlluminationOff (run (powerOn t0) is) :=
    run_illumination is (powerOn t0) (by simp [IlluminationOff, powerOn, MAX_DIMMER_VALUE])
  exact ⟨h.1, fun he => ⟨h.2.1 he, (h.2.1 he) ▸ h.2.2⟩⟩

/-- Witness for C11: the pedal press 60 ms after power-on goes from IDLE to EXPOSURE and writes
the power setting; five ticks in EDIT_POWER change `dimmer_value` and leave `OCR1A`. -/
theorem duty_written_on_edges_witness :
    (powerOn 0).currentState = IDLE ∧
    (loop (powerOn 0) (pedalSample 60 false)).1.currentState = EXPOSURE ∧
    (loop (powerOn 0) (pedalSample 60 false)).1.OCR1A = (powerOn 0).dimmer_value ∧
    (stateIn EDIT_POWER 60000 6000 0).currentState = EDIT_POWER ∧
    (loop (stateIn EDIT_POWER 60000 6000 0) (idleSample 10 5)).1.dimmer_value = 6050 ∧
    (loop (stateIn EDIT_POWER 60000 6000 0) (idleSample 10 5)).1.OCR1A
      = (stateIn EDIT_POWER 60000 6000 0).OCR1A :=
  ⟨rfl, by decide,
    ((duty_written_on_edges (powerOn 0) (pedalSample 60 false)).2.1 rfl (by decide)).1,
    rfl, by decide,
    (duty_written_on_edges (stateIn EDIT_POWER 60000 6000 0) (idleSample 10 5)).2.2.2 rfl⟩

/-- Witness for C12: encoder ticks in IDLE change neither setting. -/
theorem settings_frame_witness :
    (powerOn 0).currentState ≠ EDIT_DURATION ∧ (powerOn 0).currentState ≠ EDIT_POWER ∧
    (loop (powerOn 0) (idleSample 10 5)).1.exposure_duration = 60000 ∧
    (loop (powerOn 0) (idleSample 10 5)).1.dimmer_value = 6000 :=
  ⟨by decide, by decide,
    (settings_frame (powerOn 0) (idleSample 10 5)).1 (by decide),
    (settings_frame (powerOn 0) (idleSample 10 5)).2 (by decide)⟩

/-- Witness for C14: in SCROLL_MODE a button press in a cycle with two ticks opens EDIT_DURATION
with the encoder at 0, and the next cycle without movement keeps the duration of 60000. -/
theorem menu_confirm_witness :
    (stateIn SCROLL_MODE 60000 6000 0).currentState = SCROLL_MODE ∧
    (loop (stateIn SCROLL_MODE 60000 6000 0) ⟨60, true, false, 2⟩).2.pushbutton = true ∧
    (loop (stateIn SCROLL_MODE 60000 6000 0) ⟨60, true, false, 2⟩).1.currentSelection
      = DURATION ∧
    (loop (stateIn SCROLL_MODE 60000 6000 0) ⟨60, true, false, 2⟩).1.currentState
      = EDIT_DURATION ∧
    (loop (stateIn SCROLL_MODE 60000 6000 0) ⟨60, true, false, 2⟩).1.encoder = 0 ∧
    (loop (loop (stateIn SCROLL_MODE 60000 6000 0) ⟨60, true, false, 2⟩).1
      (idleSample 70 0)).1.exposure_duration = 60000 :=
  ⟨rfl, by decide, by decide,
    ((menu_confirm (stateIn SCROLL_MODE 60000 6000 0) ⟨60, true, false, 2⟩ (idleSample 70 0)
      rfl (by decide)).2.1 (by decide)).1,
    ((menu_confirm (stateIn SCROLL_MODE 60000 6000 0) ⟨60, true, false, 2⟩ (idleSample 70 0)
      rfl (by decide)).2.1 (by decide)).2,
    (menu_confirm (stateIn SCROLL_MODE 60000 6000 0) ⟨60, true, false, 2⟩ (idleSample 70 0)
      rfl (by decide)).2.2.2.2.1 (by decide) rfl (by decide)⟩

/-- Witness for C15: in SCROLL_MODE a cycle with the pedal released and one with the pedal
pressed, the button pressed in both, end in the same mode with the same register. -/
theorem pedal_ignored_in_menu_witness :
    (stateIn SCROLL_MODE 60000 6000 0).currentState = SCROLL_MODE ∧
    (loop (stateIn SCROLL_MODE 60000 6000 0) ⟨60, true, false, 0⟩).1.currentState
      = (loop (stateIn SCROLL_MODE 60000 6000 0) ⟨60, false, false, 0⟩).1.currentState ∧
    (loop (stateIn SCROLL_MODE 60000 6000 0) ⟨60, true, false, 0⟩).1.OCR1A
      = (loop (stateIn SCROLL_MODE 60000 6000 0) ⟨60, false, false, 0⟩).1.OCR1A :=
  ⟨rfl,
    (pedal_ignored_in_menu (stateIn SCROLL_MODE 60000 6000 0) ⟨60, true, false, 0⟩
      ⟨60, false, false, 0⟩ (Or.inl rfl) rfl rfl rfl).1,
    (pedal_ignored_in_menu (stateIn SCROLL_MODE 60000 6000 0) ⟨60, true, false, 0⟩
      ⟨60, false, false, 0⟩ (Or.inl rfl) rfl rfl rfl).2.2.2.2.1⟩

/-- Witness for C16: the default 6000 shows 15.0. -/
theorem power_display_witness :
    (powerOn 0).dimmer_value ≤ MAX_DIMMER_VALUE ∧
    (display_power_and_duration (powerOn 0)).power_whole = 15 ∧
    (display_power_and_duration (powerOn 0)).power_decimal = 0 ∧
    10 * (display_power_and_duration (powerOn 0)).power_whole
      + (display_power_and_duration (powerOn 0)).power_decimal = 10 * 6000 / 400 :=
  ⟨by decide, by decide, by decide, (power_display (powerOn 0) (by decide)).2.1⟩

/-- Witness for C17: 500 ms into an exposure of 2000 ms the display shows 1. -/
theorem remaining_time_display_witness :
    (loop exposing2000 (idleSample 500 0)).1.currentState = EXPOSURE ∧
    exposing2000.exposure_start_time < ULONG ∧ exposing2000.exposure_duration < ULONG ∧
    remainingSeconds (loop exposing2000 (idleSample 500 0)).1 500 = 1 ∧
    remainingSeconds (loop exposing2000 (idleSample 500 0)).1 (millis (idleSample 500 0)) =
      ((loop exposing2000 (idleSample 500 0)).1.exposure_duration
        - sub32 (millis (idleSample 500 0))
            (loop exposing2000 (idleSample 500 0)).1.exposure_start_time) / 1000 :=
  ⟨by decide, by decide, by decide, by decide,
    (remaining_time_display exposing2000 (idleSample 500 0) (by decide) (by decide)
      (by decide)).2.1⟩

/-- Witness for C19: after the pedal press the register holds the power setting of 6000; after
entering EDIT_POWER through the menu it is 0. -/
theorem illumination_off_invariant_witness :
    (run (powerOn 0) [pedalSample 60 false]).currentState = EXPOSURE ∧
    (run (powerOn 0) [pedalSample 60 false]).OCR1A = 6000 ∧
    (run (powerOn 0) [pedalSample 60 false, pedalSample 70 true]).OCR1A
      = (run (powerOn 0) [pedalSample 60 false, pedalSample 70 true]).dimmer_value ∧
    (run (powerOn 0) (enterMenuAndConfirm 1)).currentState ≠ EXPOSURE ∧
    (run (powerOn 0) (enterMenuAndConfirm 1)).OCR1A = 0 :=
  ⟨by decide, by decide,
    ((illumination_off_invariant 0 [pedalSample 60 false, pedalSample 70 true]).2
      (by decide)).1,
    by decide,
    (illumination_off_invariant 0 (enterMenuAndConfirm 1)).1 (by decide)⟩

end Litholino
